import Mathlib

/-!
Verification of the MusicMetaLinker identity-resolution core.

This file is a shallow embedding, in Lean 4, of the multi-source
identity-resolution engine of the MusicMetaLinker repository:

* `DeezerAlign` (MusicMetaLinker/linking/deezer_links.py) — the Streaming
  Catalog adapter: free-text search, ISRC lookup, duration/track-number
  filtering and closest-duration selection in `best_match`.
* `MusicBrainzAlign` (MusicMetaLinker/linking/musicbrainz_links.py) — the
  Canonical-ID Catalog adapter: lookup by MBID, lookup by ISRC, free-text
  recording search, and resolution of a track-level MBID from a
  release-level MBID.
* `YouTubeAlign` (MusicMetaLinker/linking/youtube_links.py) — the Video
  Catalog adapter.
* `Align` (MusicMetaLinker/linking/linking.py) — the Resolver that chains
  the adapters per field.
* `complement_jams` (MusicMetaLinker/link_partitions.py) — the Batch
  Driver step that merges resolved links into a record and builds the
  audit row.

Modelling conventions, applied throughout:

* Python `None` becomes `Option.none`; a fallible accessor that a caller
  wraps in try/except becomes an `Option`; an exception that the source
  does NOT catch at the modelled boundary becomes `Except.error ()`.
* Python truthiness tests (`if self.artist:`) are modelled by explicit
  `truthy` functions: an empty string, `0`, an empty list and `None` are
  falsy.  Tests written `is None` in the source are modelled by matching
  on `Option` instead.
* Durations are modelled as `Int`.  The source mixes Python `int` and
  `float` seconds/milliseconds; every claim settled here is insensitive
  to the fractional part, so integer arithmetic (with `/` as integer
  division in `mbGetDuration`) is a faithful abstraction.
* Each external service is an oracle record of pure functions (one per
  network entry point, keyed by exactly the parameters the source
  passes), so that two calls with the same parameters return the same
  answer and a call's answer cannot depend on parameters the source does
  not send.
-/

deriving instance DecidableEq for Except

/-- Python truthiness of an optional string: `None` and the empty string
are falsy. -/
def truthyS : Option String → Bool
  | none => false
  | some s => s ≠ ""

/-- Python truthiness of an optional integer: `None` and `0` are falsy. -/
def truthyI : Option Int → Bool
  | none => false
  | some d => d ≠ 0

/-- Python truthiness of an optional natural: `None` and `0` are falsy. -/
def truthyN : Option Nat → Bool
  | none => false
  | some n => n ≠ 0

/-- Python truthiness of an optional string list: `None` and `[]` are
falsy. -/
def truthyL : Option (List String) → Bool
  | none => false
  | some l => l ≠ []

/-! ## Deezer adapter (deezer_links.py) -/

/-- One `deezer.Track` resource, restricted to the attributes the adapter
reads.  `releaseDate` is the already-formatted date string (the source
formats it with strftime); it is `none` when the attribute is absent, in
which case the source's AttributeError handler yields `None`. -/
structure DzTrack where
  tid : Nat
  title : String
  titleShort : String
  link : String
  duration : Int
  trackPosition : Nat
  releaseDate : Option String
  bpm : Int
  rank : Nat
  preview : String
  isrc : String
  artistName : String
  albumTitle : String
deriving DecidableEq, Repr

/-- The parameters `DeezerAlign._get_data` passes to
`deezer_client.search` (deezer_links.py line 93): track, artist, album
and the `strict` keyword, which the adapter fills with its inverted
`fuzzy` flag. -/
structure DzQuery where
  track : Option String
  artist : Option String
  album : Option String
  strictFlag : Bool
deriving DecidableEq, Repr

/-- The Deezer service oracle: the free-text search endpoint and the
`/track/isrc:` lookup endpoint.  `isrcLookup code = none` models the
request raising (caught by the source's bare `except`). -/
structure DzService where
  search : DzQuery → List DzTrack
  isrcLookup : String → Option DzTrack

/-- State of a `DeezerAlign` instance after `__init__`
(deezer_links.py lines 23-75). -/
structure DzState where
  artist : Option String
  album : Option String
  track : Option String
  track_number : Option Nat
  duration : Option Int
  isrc : Option (List String)
  strict : Bool
  fuzzy : Bool
deriving DecidableEq, Repr

/-- Constructor of `DeezerAlign`: truncates a truthy album to its first
two words when not strict (lines 63-64), and inverts the `fuzzy`
argument (line 72: the stored flag is False exactly when the argument is
True).  The source also contains a dead string-wrapping of `isrc`
(line 68-70: the wrap is immediately overwritten at line 70), so the
`isrc` field is stored exactly as passed; the Resolver always passes a
list, which is the type used here. -/
def dzInit (artist album track : Option String) (track_number : Option Nat)
    (duration : Option Int) (isrc : Option (List String))
    (strict : Bool) (fuzzy : Bool) : DzState :=
  let album' :=
    match album with
    | some a =>
        if a ≠ "" ∧ ¬strict ∧ a.contains ' ' then
          some (String.intercalate " " ((a.splitOn " ").take 2))
        else some a
    | none => none
  { artist := artist, album := album', track := track,
    track_number := track_number, duration := duration, isrc := isrc,
    strict := strict, fuzzy := !fuzzy }

/-- Search results as `DeezerAlign._get_data` returns them: `None` for
an empty result set, otherwise the list cut to `limit` (lines 77-99). -/
def dzGetData (st : DzState) (svc : DzService) (limit : Option Nat) :
    Option (List DzTrack) :=
  let results := svc.search ⟨st.track, st.artist, st.album, st.fuzzy⟩
  if results = [] then none
  else some (match limit with | none => results | some n => results.take n)

/-- Duration filter `DeezerAlign._filter_duration` (lines 101-128):
identity when no duration is set (`is None` test) or when not strict. -/
def dzFilterDuration (st : DzState) (results : List DzTrack)
    (thr : Int) : List DzTrack :=
  match st.duration with
  | none => results
  | some d =>
      if st.strict = false then results
      else results.filter (fun r => |r.duration - d| ≤ thr)

/-- Track-number filter `DeezerAlign._filter_track_number`
(lines 130-149): identity when no track number is set or when not
strict. -/
def dzFilterTrackNumber (st : DzState) (results : List DzTrack) :
    List DzTrack :=
  match st.track_number with
  | none => results
  | some n =>
      if st.strict = false then results
      else results.filter (fun r => r.trackPosition = n)

/-- ISRC lookup `DeezerAlign._get_track_by_isrc` (lines 151-169): `None`
for a falsy ISRC field, otherwise the first code whose endpoint request
does not raise; falls off the loop (returning `None`) when every code
raises. -/
def dzGetTrackByIsrc (st : DzState) (svc : DzService) : Option DzTrack :=
  match st.isrc with
  | none => none
  | some codes => if codes = [] then none else codes.findSome? svc.isrcLookup

/-- Python `min(xs, key)` on a nonempty list: left fold keeping the
earlier element on ties (replacement only on a strictly smaller key). -/
def pyMinBy (key : Int → Nat) (x : Int) (xs : List Int) : Int :=
  xs.foldl (fun acc y => if key y < key acc then y else acc) x

/-- Combined survivors of both strict-mode filters, as applied inside
`best_match` (lines 203-206). -/
def dzSurvivors (st : DzState) (svc : DzService) (thr : Int) :
    List DzTrack :=
  dzFilterTrackNumber st (dzFilterDuration st
    ((svc.search ⟨st.track, st.artist, st.album, st.fuzzy⟩)) thr)

/-- Best-match algorithm `DeezerAlign.best_match` (lines 171-217).
`Except.error ()` models the uncaught ValueError that Python's
`min([])` raises at line 214 when the filters eliminated every
candidate while a duration target is set.  The closest-duration
selection reproduces line 214 verbatim:
`durations.index(min(durations, key=lambda x: abs(x - self.duration)))`. -/
def dzBestMatch (st : DzState) (svc : DzService) (thr : Int) :
    Except Unit (Option DzTrack) :=
  if ¬truthyI st.duration ∧ ¬truthyN st.track_number ∧ ¬truthyL st.isrc then
    .ok ((dzGetData st svc (some 1)).bind List.head?)
  else if truthyL st.isrc then
    .ok (dzGetTrackByIsrc st svc)
  else
    match dzGetData st svc none with
    | none => .ok none
    | some results =>
        if results.length = 1 then .ok results.head?
        else
          let survivors := dzFilterTrackNumber st
            (dzFilterDuration st results thr)
          if truthyI st.duration then
            let d := st.duration.getD 0
            match survivors.map DzTrack.duration with
            | [] => .error ()
            | dh :: dt =>
                let m := pyMinBy (fun x => (x - d).natAbs) dh dt
                .ok (survivors.get? ((survivors.map DzTrack.duration).indexOf m))
          else .ok survivors.head?

/-- Accessor `DeezerAlign.get_track` (lines 321-332): the short title of
the best match; an AttributeError on a `None` best match is caught and
yields `None`, while the ValueError from `best_match` propagates. -/
def dzGetTrack (st : DzState) (svc : DzService) :
    Except Unit (Option String) :=
  (dzBestMatch st svc 3).map (fun bm => bm.map DzTrack.titleShort)

/-- Accessor `DeezerAlign.get_isrc` (lines 386-397). -/
def dzGetIsrc (st : DzState) (svc : DzService) :
    Except Unit (Option String) :=
  (dzBestMatch st svc 3).map (fun bm => bm.map DzTrack.isrc)

/-- Accessor `DeezerAlign.get_artist_name` (lines 282-293). -/
def dzGetArtistName (st : DzState) (svc : DzService) :
    Except Unit (Option String) :=
  (dzBestMatch st svc 3).map (fun bm => bm.map DzTrack.artistName)

/-- Accessor `DeezerAlign.get_album_title` (lines 308-319). -/
def dzGetAlbumTitle (st : DzState) (svc : DzService) :
    Except Unit (Option String) :=
  (dzBestMatch st svc 3).map (fun bm => bm.map DzTrack.albumTitle)

/-- Accessor `DeezerAlign.get_track_number` (lines 347-358). -/
def dzGetTrackNumber (st : DzState) (svc : DzService) :
    Except Unit (Option Nat) :=
  (dzBestMatch st svc 3).map (fun bm => bm.map DzTrack.trackPosition)

/-- Accessor `DeezerAlign.get_duration` (lines 232-243). -/
def dzGetDuration (st : DzState) (svc : DzService) :
    Except Unit (Option Int) :=
  (dzBestMatch st svc 3).map (fun bm => bm.map DzTrack.duration)

/-- Accessor `DeezerAlign.get_release_date` (lines 360-371): the date is
itself optional on the track (an absent attribute raises an
AttributeError that the source catches). -/
def dzGetReleaseDate (st : DzState) (svc : DzService) :
    Except Unit (Option String) :=
  (dzBestMatch st svc 3).map (fun bm => bm.bind DzTrack.releaseDate)

/-! ## MusicBrainz adapter (musicbrainz_links.py) -/

/-- One track entry nested under a release medium (used only by
`get_track_number`, which reads `["track-list"][0]["number"]`). -/
structure MBMediumTrack where
  number : Option Nat
deriving DecidableEq, Repr

/-- One medium of a release.  A missing `track-list` key raises a caught
KeyError (`none`); an empty list raises an uncaught IndexError. -/
structure MBMedium where
  trackList : Option (List MBMediumTrack)
deriving DecidableEq, Repr

/-- One release of a recording, restricted to the keys the adapter
reads.  Optional fields model dictionary keys whose absence the source
catches as KeyError. -/
structure MBRelease where
  relId : String
  title : Option String
  date : Option String
  mediumList : Option (List MBMedium)
deriving DecidableEq, Repr

/-- One recording as returned by the MusicBrainz endpoints, restricted
to the keys the adapter reads.  The `release-list` key is always present
on results fetched with the `releases` include, which every call in the
source requests, so it is a plain list here; `isrc-list` and `iswc-list`
really are absent on many recordings and stay optional. -/
structure MBRecording where
  recId : String
  title : Option String
  artistCreditPhrase : Option String
  length : Option Int
  isrcList : Option (List String)
  iswcList : Option (List String)
  releaseList : List MBRelease
deriving DecidableEq, Repr

/-- The exact parameter tuple the adapter sends to
`mb.search_recordings` (recording, artist, release, dur, tnum, strict,
limit, rid).  `_get_track_mbid_from_release` (line 115) sends
`rid = self.mbid_release` and no limit; `_search` (line 141) sends
`limit = self.limit` and no rid. -/
structure MBSearchParams where
  track : Option String
  artist : Option String
  album : Option String
  dur : Option Int
  tnum : Option Nat
  strict : Bool
  limit : Option Nat
  rid : Option String
deriving DecidableEq, Repr

/-- The MusicBrainz service oracle.  `byId id = none` and
`byIsrc code = none` model `mb.ResponseError`, which the source catches
inside `_search_by_mbid` and `_search_by_isrc` respectively;
`searchRecordings` is modelled total (its uncaught transport failures
are outside every claim settled here). -/
structure MBService where
  byId : String → Option MBRecording
  byIsrc : String → Option (List MBRecording)
  searchRecordings : MBSearchParams → List MBRecording

/-- State of a `MusicBrainzAlign` instance after the field assignments
of `__init__` (musicbrainz_links.py lines 50-61).  `duration` is in
milliseconds: the constructor multiplies a float duration by 1000
(line 56). -/
structure MBState where
  mbid_track : Option String
  mbid_release : Option String
  artist : Option String
  album : Option String
  track : Option String
  track_number : Option Nat
  duration : Option Int
  isrc : Option (List String)
  strict : Bool
  limit : Option Nat
deriving DecidableEq, Repr

/-- Cross-reference `MusicBrainzAlign._get_track_mbid_from_release`
(lines 106-131): search recordings with the release id as the `rid`
parameter, then return the id of the first recording whose release list
contains the stored release id; `None` when no recording qualifies or
the result list is empty. -/
def mbGetTrackMbidFromRelease (st : MBState) (svc : MBService) :
    Option String :=
  let recs := svc.searchRecordings
    ⟨st.track, st.artist, st.album, st.duration, st.track_number,
     st.strict, none, st.mbid_release⟩
  recs.findSome? (fun rec =>
    match st.mbid_release with
    | some rid =>
        if rid ∈ rec.releaseList.map MBRelease.relId then some rec.recId
        else none
    | none => none)

/-- The value held by `self.mbid_track` after `get_recording` ran
(lines 176-177): with a truthy release-level id the stored track-level
id is unconditionally replaced by the release cross-reference. -/
def mbResolvedTrackId (st : MBState) (svc : MBService) : Option String :=
  if truthyS st.mbid_release then mbGetTrackMbidFromRelease st svc
  else st.mbid_track

/-- Shape of what `get_recording` returns: `None`, the dict
`{"recording": …}` from `get_recording_by_id`, the ISRC result dict
(which has no top-level `"recording"` key), or the filtered list of a
free-text search. -/
inductive MBQueryResult where
  | noneR : MBQueryResult
  | recDict : MBRecording → MBQueryResult
  | isrcDict : List MBRecording → MBQueryResult
  | recList : List MBRecording → MBQueryResult
deriving DecidableEq, Repr

/-- The ISRC and free-text branches of `get_recording` (lines 180-184):
`_search_by_isrc` (lines 67-85) tries only the first code and collapses
a ResponseError to `None`; the free-text branch filters results to those
carrying an `isrc-list` key (`_filter_search_results`, line 166). -/
def mbNoIdPath (st : MBState) (svc : MBService) : MBQueryResult :=
  if truthyL st.isrc then
    match st.isrc with
    | some (c :: _) =>
        (match svc.byIsrc c with
         | some recs => .isrcDict recs
         | none => .noneR)
    | _ => .noneR
  else
    .recList ((svc.searchRecordings
      ⟨st.track, st.artist, st.album, st.duration, st.track_number,
       st.strict, st.limit, none⟩).filter (fun r => r.isrcList.isSome))

/-- Lookup dispatch `MusicBrainzAlign.get_recording` (lines 168-184),
evaluated on the post-mutation track id. -/
def mbRecordingResult (st : MBState) (svc : MBService) : MBQueryResult :=
  match mbResolvedTrackId st svc with
  | some tid =>
      if tid = "" then mbNoIdPath st svc
      else
        match svc.byId tid with
        | some rec => .recDict rec
        | none => .noneR
  | none => mbNoIdPath st svc

/-- Best-match extraction `MusicBrainzAlign.get_best_match`
(lines 186-201): head of a nonempty list result, the `"recording"`
value of a by-id dict, and `None` otherwise — in particular the ISRC
result dict has no `"recording"` key, so that branch yields `None`. -/
def mbBestMatch (st : MBState) (svc : MBService) : Option MBRecording :=
  match mbRecordingResult st svc with
  | .recList l => l.head?
  | .recDict r => some r
  | .isrcDict _ => none
  | .noneR => none

/-- Accessor `MusicBrainzAlign.get_track` (lines 203-212). -/
def mbGetTrack (st : MBState) (svc : MBService) : Option String :=
  (mbBestMatch st svc).bind MBRecording.title

/-- Accessor `MusicBrainzAlign.get_artist` (lines 214-223). -/
def mbGetArtist (st : MBState) (svc : MBService) : Option String :=
  (mbBestMatch st svc).bind MBRecording.artistCreditPhrase

/-- Accessor `MusicBrainzAlign.get_isrc` (lines 275-286). -/
def mbGetIsrc (st : MBState) (svc : MBService) : Option (List String) :=
  (mbBestMatch st svc).bind MBRecording.isrcList

/-- Accessor `MusicBrainzAlign.get_mbid` (lines 251-260). -/
def mbGetMbid (st : MBState) (svc : MBService) : Option String :=
  (mbBestMatch st svc).map MBRecording.recId

/-- Accessor `MusicBrainzAlign.get_duration` (lines 238-249): length in
milliseconds divided by 1000; TypeError on a `None` best match and
KeyError on a missing length are both caught. -/
def mbGetDuration (st : MBState) (svc : MBService) : Option Int :=
  (mbBestMatch st svc).bind (fun r => r.length.map (· / 1000))

/-- Accessor `MusicBrainzAlign.get_album` (lines 225-236): title of the
first release.  The source catches TypeError (best match `None`) and
KeyError (missing keys) but not the IndexError an empty release list
raises, modelled as `Except.error ()`. -/
def mbGetAlbum (st : MBState) (svc : MBService) :
    Except Unit (Option String) :=
  match mbBestMatch st svc with
  | none => .ok none
  | some r =>
      match r.releaseList with
      | [] => .error ()
      | rel :: _ => .ok rel.title

/-- Accessor `MusicBrainzAlign.get_release_date` (lines 288-299): date
of the first release, with the same error behaviour as `get_album`. -/
def mbGetReleaseDate (st : MBState) (svc : MBService) :
    Except Unit (Option String) :=
  match mbBestMatch st svc with
  | none => .ok none
  | some r =>
      match r.releaseList with
      | [] => .error ()
      | rel :: _ => .ok rel.date

/-- Accessor `MusicBrainzAlign.get_track_number` (lines 301-313):
descends release-list, medium-list and track-list; missing keys are
caught KeyErrors, empty lists are uncaught IndexErrors. -/
def mbGetTrackNumber (st : MBState) (svc : MBService) :
    Except Unit (Option Nat) :=
  match mbBestMatch st svc with
  | none => .ok none
  | some r =>
      match r.releaseList with
      | [] => .error ()
      | rel :: _ =>
          match rel.mediumList with
          | none => .ok none
          | some [] => .error ()
          | some (m :: _) =>
              match m.trackList with
              | none => .ok none
              | some [] => .error ()
              | some (t :: _) => .ok t.number

/-! ## YouTube Music adapter (youtube_links.py) -/

/-- One YouTube Music search result, restricted to the keys the adapter
reads.  `artistNames` models `result["artists"]` projected to names: a
missing key is a caught KeyError, while indexing `[0]` into an empty
list is an uncaught IndexError. -/
structure YTTrack where
  videoId : Option String
  title : Option String
  artistNames : Option (List String)
  albumName : Option String
  durationSeconds : Option Int
  year : Option String
deriving DecidableEq, Repr

/-- The YouTube Music oracle: `search` keyed by the interpolated query
string and the `ignore_spelling` flag, exactly the two parameters the
source sends (youtube_links.py lines 67-71). -/
structure YTService where
  search : String → Bool → List YTTrack

/-- State of a `YouTubeAlign` instance (fields of `__init__`,
lines 13-52, restricted to those its search and accessors read). -/
structure YTState where
  track : Option String
  artist : Option String
  album : Option String
  strict : Bool
deriving DecidableEq, Repr

/-- Python f-string interpolation of an optional value: `None` renders
as the four-character string, exactly as in
`f"{self.artist} {self.track} {self.album}"` (line 68). -/
def pyStr : Option String → String
  | none => "None"
  | some s => s

/-- Best match `YouTubeAlign.get_best_match` (lines 97-112): head of the
search results (the duration filter at line 108 is commented out in the
source). -/
def ytBestMatch (st : YTState) (svc : YTService) : Option YTTrack :=
  (svc.search (pyStr st.artist ++ " " ++ pyStr st.track ++ " " ++ pyStr st.album)
    st.strict).head?

/-- Accessor `YouTubeAlign.get_youtube_title` (lines 142-154). -/
def ytGetTitle (st : YTState) (svc : YTService) : Option String :=
  (ytBestMatch st svc).bind YTTrack.title

/-- Accessor `YouTubeAlign.get_youtube_artist` (lines 156-168): name of
the first credited artist; a missing `artists` key is caught, an empty
artist list raises. -/
def ytGetArtist (st : YTState) (svc : YTService) :
    Except Unit (Option String) :=
  match ytBestMatch st svc with
  | none => .ok none
  | some t =>
      match t.artistNames with
      | none => .ok none
      | some [] => .error ()
      | some (a :: _) => .ok (some a)

/-- Accessor `YouTubeAlign.get_youtube_album` (lines 170-182):
`best_match["album"]["name"]`, with KeyError and TypeError caught. -/
def ytGetAlbum (st : YTState) (svc : YTService) : Option String :=
  (ytBestMatch st svc).bind YTTrack.albumName

/-- Accessor `YouTubeAlign.get_youtube_duration` (lines 184-196). -/
def ytGetDuration (st : YTState) (svc : YTService) : Option Int :=
  (ytBestMatch st svc).bind YTTrack.durationSeconds

/-! ## Resolver (linking.py, class Align) -/

/-- The bundle of external services the Resolver's adapter properties
talk to. -/
structure Services where
  mb : MBService
  dz : DzService
  yt : YTService

/-- State of an `Align` instance: the fields set by `__init__`
(linking.py lines 103-111).  The ISRC field is a list once stored: a
string argument is wrapped into a singleton list at lines 113-114, so
the list type is used directly. -/
structure AlignState where
  mbid_track : Option String
  mbid_release : Option String
  artist : Option String
  album : Option String
  track : Option String
  track_number : Option Nat
  duration : Option Int
  isrc : Option (List String)
  strict : Bool
deriving DecidableEq, Repr

/-- The `MusicBrainzAlign` instance the `mb_link` property builds from
the current Resolver state (linking.py lines 127-142); the MusicBrainz
constructor converts the float duration to milliseconds. -/
def mbFromAlign (st : AlignState) : MBState :=
  { mbid_track := st.mbid_track, mbid_release := st.mbid_release,
    artist := st.artist, album := st.album, track := st.track,
    track_number := st.track_number,
    duration := st.duration.map (· * 1000), isrc := st.isrc,
    strict := st.strict, limit := none }

/-- The `DeezerAlign` instance the `dz_link` property builds from the
current Resolver state (lines 144-157), with the Deezer constructor's
default `fuzzy=True`. -/
def dzFromAlign (st : AlignState) : DzState :=
  dzInit st.artist st.album st.track st.track_number st.duration st.isrc
    st.strict true

/-- The `YouTubeAlign` instance the `yt_link` property builds from the
current Resolver state (lines 159-172). -/
def ytFromAlign (st : AlignState) : YTState :=
  { track := st.track, artist := st.artist, album := st.album,
    strict := st.strict }

/-- Initialisation `Align.__init__` (lines 103-125).  With a truthy
track-level MBID the constructor replaces the stored ISRC by the
MusicBrainz lookup's ISRC list and backfills a falsy track or artist,
each statement reading the state left by the previous one (each
`mb_link` access builds a fresh adapter from the current fields).  The
`except musicbrainzngs.ResponseError` arm that would clear
`self.mbid_track` is unreachable for a failing by-id lookup, because
`MusicBrainzAlign._search_by_mbid` already catches that ResponseError
and returns `None`; the model therefore never takes it (search-endpoint
transport failures, which could still reach it, are modelled total). -/
def alignInit (q : AlignState) (svc : Services) : AlignState :=
  if truthyS q.mbid_track then
    let s1 := { q with isrc := mbGetIsrc (mbFromAlign q) svc.mb }
    let s2 :=
      if truthyS s1.track then s1
      else { s1 with track := mbGetTrack (mbFromAlign s1) svc.mb }
    let s3 :=
      if truthyS s2.artist then s2
      else { s2 with artist := mbGetArtist (mbFromAlign s2) svc.mb }
    s3
  else q

/-- Resolver accessor `Align.get_artist` (lines 174-197): caller value
if truthy; else MusicBrainz when a track MBID is truthy; else Deezer,
MusicBrainz again, YouTube, stopping at the first value that is not
`None`. -/
def alignGetArtist (st : AlignState) (svc : Services) :
    Except Unit (Option String) :=
  if truthyS st.artist then .ok st.artist
  else
    let a0 := if truthyS st.mbid_track then
      mbGetArtist (mbFromAlign st) svc.mb else none
    match a0 with
    | some v => .ok (some v)
    | none => do
        match ← dzGetArtistName (dzFromAlign st) svc.dz with
        | some v => pure (some v)
        | none =>
            match mbGetArtist (mbFromAlign st) svc.mb with
            | some v => pure (some v)
            | none => ytGetArtist (ytFromAlign st) svc.yt

/-- Resolver accessor `Align.get_album` (lines 199-222), same chain
shape as `get_artist`. -/
def alignGetAlbum (st : AlignState) (svc : Services) :
    Except Unit (Option String) :=
  if truthyS st.album then .ok st.album
  else do
    let a0 ← if truthyS st.mbid_track then
      mbGetAlbum (mbFromAlign st) svc.mb else pure none
    match a0 with
    | some v => pure (some v)
    | none =>
        match ← dzGetAlbumTitle (dzFromAlign st) svc.dz with
        | some v => pure (some v)
        | none =>
            match ← mbGetAlbum (mbFromAlign st) svc.mb with
            | some v => pure (some v)
            | none => pure (ytGetAlbum (ytFromAlign st) svc.yt)

/-- Resolver accessor `Align.get_track` (lines 224-247). -/
def alignGetTrack (st : AlignState) (svc : Services) :
    Except Unit (Option String) :=
  if truthyS st.track then .ok st.track
  else
    let t0 := if truthyS st.mbid_track then
      mbGetTrack (mbFromAlign st) svc.mb else none
    match t0 with
    | some v => .ok (some v)
    | none => do
        match ← dzGetTrack (dzFromAlign st) svc.dz with
        | some v => pure (some v)
        | none =>
            match mbGetTrack (mbFromAlign st) svc.mb with
            | some v => pure (some v)
            | none => pure (ytGetTitle (ytFromAlign st) svc.yt)

/-- Resolver accessor `Align.get_track_number` (lines 249-270): caller,
MusicBrainz when an MBID is truthy, Deezer, MusicBrainz (no video
step). -/
def alignGetTrackNumber (st : AlignState) (svc : Services) :
    Except Unit (Option Nat) :=
  if truthyN st.track_number then .ok st.track_number
  else do
    let t0 ← if truthyS st.mbid_track then
      mbGetTrackNumber (mbFromAlign st) svc.mb else pure none
    match t0 with
    | some v => pure (some v)
    | none =>
        match ← dzGetTrackNumber (dzFromAlign st) svc.dz with
        | some v => pure (some v)
        | none => mbGetTrackNumber (mbFromAlign st) svc.mb

/-- Resolver accessor `Align.get_duration` (lines 272-295). -/
def alignGetDuration (st : AlignState) (svc : Services) :
    Except Unit (Option Int) :=
  if truthyI st.duration then .ok st.duration
  else
    let d0 := if truthyS st.mbid_track then
      mbGetDuration (mbFromAlign st) svc.mb else none
    match d0 with
    | some v => .ok (some v)
    | none => do
        match ← dzGetDuration (dzFromAlign st) svc.dz with
        | some v => pure (some v)
        | none =>
            match mbGetDuration (mbFromAlign st) svc.mb with
            | some v => pure (some v)
            | none => pure (ytGetDuration (ytFromAlign st) svc.yt)

/-- The Python-typed ISRC value `Align.get_isrc` can return: the stored
list, MusicBrainz's list, or Deezer's single string. -/
inductive PyIsrc where
  | listV : List String → PyIsrc
  | strV : String → PyIsrc
deriving DecidableEq, Repr

/-- Resolver accessor `Align.get_isrc` (lines 297-319): stored value if
truthy; else MusicBrainz when an MBID is truthy; else Deezer then
MusicBrainz (the method also caches the result on the instance, which
only affects later calls and is outside each single-call claim). -/
def alignGetIsrc (st : AlignState) (svc : Services) :
    Except Unit (Option PyIsrc) :=
  if truthyL st.isrc then .ok (st.isrc.map .listV)
  else
    let i0 := if truthyS st.mbid_track then
      mbGetIsrc (mbFromAlign st) svc.mb else none
    match i0 with
    | some v => .ok (some (.listV v))
    | none => do
        match ← dzGetIsrc (dzFromAlign st) svc.dz with
        | some s => pure (some (.strV s))
        | none => pure ((mbGetIsrc (mbFromAlign st) svc.mb).map .listV)

/-- Resolver accessor `Align.get_release_date` (lines 321-331): the
MusicBrainz result whenever a track MBID is truthy — even when that
result is `None` — and the Deezer result otherwise; there is no
fall-through between the two sources. -/
def alignGetReleaseDate (st : AlignState) (svc : Services) :
    Except Unit (Option String) :=
  if truthyS st.mbid_track then mbGetReleaseDate (mbFromAlign st) svc.mb
  else dzGetReleaseDate (dzFromAlign st) svc.dz

/-! ## Batch-driver merge step (link_partitions.py, complement_jams)

`complement_jams` receives an already-constructed linker and calls one
accessor per field; the linker argument is therefore abstracted here as
the record of values those accessor calls return.  Identifier values of
heterogeneous Python types (strings, ints, `None`) are uniformly
rendered as `Option String`, which the merge logic never inspects. -/

/-- The values the linker accessors return inside `complement_jams`
(link_partitions.py lines 69-84), one field per call site. -/
structure LinkerOut where
  track : Option String
  artist : Option String
  album : Option String
  trackNumber : Option Nat
  duration : Option Int
  releaseDate : Option String
  mbid : Option String
  acousticbrainz : Option String
  isrcVal : Option String
  deezerId : Option String
  deezerUrl : Option String
  youtubeUrl : Option String
deriving DecidableEq, Repr

/-- The seven keys of the `links` dict built at lines 77-84. -/
def linkKeys : List String :=
  ["musicbrainz", "acousticbrainz", "isrc", "deezer_id", "deezer_url",
   "youtube_url", "spotify_id"]

/-- The `links` dict of lines 77-84, as an ordered association list.
The `isrc` entry is `linker.get_isrc() if isrc is None else isrc`
(line 79) and the `spotify_id` entry is the caller's argument. -/
def linksDict (lo : LinkerOut) (isrcParam spotifyId : Option String) :
    List (String × Option String) :=
  [("musicbrainz", lo.mbid),
   ("acousticbrainz", lo.acousticbrainz),
   ("isrc", match isrcParam with | none => lo.isrcVal | some s => some s),
   ("deezer_id", lo.deezerId),
   ("deezer_url", lo.deezerUrl),
   ("youtube_url", lo.youtubeUrl),
   ("spotify_id", spotifyId)]

/-- Lookup in an ordered association list modelling a Python dict whose
values may be `None`: the outer `Option` is key presence, the inner one
is the stored value. -/
def dictLookup (m : List (String × Option String)) (k : String) :
    Option (Option String) :=
  (m.find? (fun p => p.1 = k)).map Prod.snd

/-- Python dict merge `{**a, **b}`: the keys of `a` in order with the
value from `b` on collision, followed by the keys of `b` not in `a`, in
the order of `b`. -/
def mergeDicts (a b : List (String × Option String)) :
    List (String × Option String) :=
  a.map (fun p =>
    match dictLookup b p.1 with
    | some v => (p.1, v)
    | none => p)
  ++ b.filter (fun p => (dictLookup a p.1).isNone)

/-- The identifier mapping written back into the record at line 93:
`{**original_identifiers, **links}`. -/
def complementIdentifiers (origIds : List (String × Option String))
    (lo : LinkerOut) (isrcParam spotifyId : Option String) :
    List (String × Option String) :=
  mergeDicts origIds (linksDict lo isrcParam spotifyId)

/-- One audit row as appended to `df_list` at lines 96-110: the file
name, the six resolved fields and the seven link values, each echoed
verbatim. -/
structure AuditRow where
  jamsFile : String
  trackName : Option String
  artistName : Option String
  albumName : Option String
  trackNumber : Option Nat
  duration : Option Int
  releaseYear : Option String
  musicbrainz : Option String
  isrcRow : Option String
  deezerId : Option String
  deezerUrl : Option String
  youtubeUrl : Option String
  acousticbrainz : Option String
  spotifyId : Option String
deriving DecidableEq, Repr

/-- The metadata fields `complement_jams` writes back into the record
at lines 87-93 (the audit row echoes the same values). -/
structure RecordOut where
  trackName : Option String
  artistName : Option String
  albumName : Option String
  trackNumber : Option Nat
  duration : Option Int
  releaseYear : Option String
  identifiers : List (String × Option String)
deriving DecidableEq, Repr

/-- The whole of `complement_jams` (lines 43-112): updated record
metadata plus the appended audit row. -/
def complementJams (lo : LinkerOut)
    (origIds : List (String × Option String)) (jamsFile : String)
    (isrcParam spotifyId : Option String) : RecordOut × AuditRow :=
  let links := linksDict lo isrcParam spotifyId
  let rec0 : RecordOut :=
    { trackName := lo.track, artistName := lo.artist,
      albumName := lo.album, trackNumber := lo.trackNumber,
      duration := lo.duration, releaseYear := lo.releaseDate,
      identifiers := mergeDicts origIds links }
  let row : AuditRow :=
    { jamsFile := jamsFile, trackName := lo.track,
      artistName := lo.artist, albumName := lo.album,
      trackNumber := lo.trackNumber, duration := lo.duration,
      releaseYear := lo.releaseDate,
      musicbrainz := lo.mbid,
      isrcRow := match isrcParam with | none => lo.isrcVal | some s => some s,
      deezerId := lo.deezerId, deezerUrl := lo.deezerUrl,
      youtubeUrl := lo.youtubeUrl, acousticbrainz := lo.acousticbrainz,
      spotifyId := spotifyId }
  (rec0, row)

/-- Linker output when no adapter returned any candidate: every
accessor yields `None` except those echoing caller-supplied query
fields, which the scenario below instantiates. -/
def loNothing (track : Option String) : LinkerOut :=
  { track := track, artist := none, album := none, trackNumber := none,
    duration := none, releaseDate := none, mbid := none,
    acousticbrainz := none, isrcVal := none, deezerId := none,
    deezerUrl := none, youtubeUrl := none }

/-! ## Specification-side helper functions

These functions restate algorithmic fragments in the direct structural
form the specification describes; the theorems below relate them to the
code-derived definitions above. -/

/-- First element of minimal key, by structural recursion: a later
element replaces the current choice only when its key is strictly
smaller, so ties keep the earlier element. -/
def firstMinBy (key : α → Nat) : List α → Option α
  | [] => none
  | x :: xs =>
      match firstMinBy key xs with
      | none => some x
      | some y => some (if key y < key x then y else x)

/-- First non-absent value of an ordered list of fallback results: the
specification's precedence chain, stopping at the first hit. -/
def chainFirst (steps : List (Option α)) : Option α :=
  steps.findSome? id

/-! ## Concrete fixtures used by witnesses and counterexamples -/

/-- A service bundle whose every endpoint misses. -/
def svcEmpty : Services :=
  { mb := { byId := fun _ => none, byIsrc := fun _ => none,
            searchRecordings := fun _ => [] },
    dz := { search := fun _ => [], isrcLookup := fun _ => none },
    yt := { search := fun _ _ => [] } }

/-- A fully-supplied Resolver query without canonical IDs. -/
def qFull : AlignState :=
  { mbid_track := none, mbid_release := none,
    artist := some "The Beatles", album := some "The Beatles CD1",
    track := some "Black Bird", track_number := some 11,
    duration := some 138, isrc := some ["GBAYE0601690"], strict := false }

/-- A nearby candidate: 100 seconds, track position 1. -/
def dzTrackA : DzTrack :=
  { tid := 1, title := "Song One", titleShort := "Song One",
    link := "https://deezer.com/track/1", duration := 100,
    trackPosition := 1, releaseDate := some "05/06/2001", bpm := 120,
    rank := 10, preview := "p1", isrc := "ISRCA",
    artistName := "Artist A", albumTitle := "Album A" }

/-- A slightly farther candidate: 102 seconds, track position 2. -/
def dzTrackB : DzTrack :=
  { tid := 2, title := "Song One", titleShort := "Song One",
    link := "https://deezer.com/track/2", duration := 102,
    trackPosition := 2, releaseDate := some "07/08/2002", bpm := 121,
    rank := 9, preview := "p2", isrc := "ISRCB",
    artistName := "Artist A", albumTitle := "Album B" }

/-- A candidate far outside the duration threshold: 200 seconds. -/
def dzTrackFar1 : DzTrack :=
  { tid := 3, title := "Song Far", titleShort := "Song Far",
    link := "https://deezer.com/track/3", duration := 200,
    trackPosition := 1, releaseDate := none, bpm := 100, rank := 5,
    preview := "p3", isrc := "ISRCC", artistName := "Artist C",
    albumTitle := "Album C" }

/-- Another candidate far outside the duration threshold: 300 seconds. -/
def dzTrackFar2 : DzTrack :=
  { tid := 4, title := "Song Far", titleShort := "Song Far",
    link := "https://deezer.com/track/4", duration := 300,
    trackPosition := 2, releaseDate := none, bpm := 100, rank := 4,
    preview := "p4", isrc := "ISRCD", artistName := "Artist C",
    albumTitle := "Album C" }

/-- The candidate returned by the ISRC lookup in the spec's Hotter Than
That scenario. -/
def dzTrackIsrc : DzTrack :=
  { tid := 5, title := "Hotter Than That (remastered)",
    titleShort := "Hotter Than That",
    link := "https://deezer.com/track/5", duration := 181,
    trackPosition := 3, releaseDate := some "01/01/1927", bpm := 200,
    rank := 99, preview := "p5", isrc := "USSM10003868",
    artistName := "Louis Armstrong and His Hot Five",
    albumTitle := "The Hot Fives" }

/-- Strict Deezer state with both a duration target and a track-number
target (post-constructor fields, the constructor-stored fuzzy flag
being the inverted default). -/
def stC2 : DzState :=
  { artist := some "Artist A", album := none, track := some "Song One",
    track_number := some 2, duration := some 100, isrc := none,
    strict := true, fuzzy := false }

/-- Non-strict Deezer state with only a duration target. -/
def stC2w : DzState :=
  { artist := some "Artist A", album := none, track := some "Song One",
    track_number := none, duration := some 100, isrc := none,
    strict := false, fuzzy := false }

/-- Deezer service returning the two nearby candidates. -/
def dzSvcNear : DzService :=
  { search := fun _ => [dzTrackA, dzTrackB], isrcLookup := fun _ => none }

/-- Deezer service returning the two nearby candidates farthest first. -/
def dzSvcNearRev : DzService :=
  { search := fun _ => [dzTrackB, dzTrackA], isrcLookup := fun _ => none }

/-- Strict Deezer state used by the spec's ISRC scenario. -/
def stC3 : DzState :=
  { artist := some "Louis Armstrong and His Hot Five", album := none,
    track := some "Hotter than that", track_number := none,
    duration := none, isrc := some ["USSM10003868"], strict := true,
    fuzzy := false }

/-- Deezer service whose ISRC endpoint knows exactly the scenario's
code. -/
def dzSvcIsrc : DzService :=
  { search := fun _ => [],
    isrcLookup := fun c =>
      if c = "USSM10003868" then some dzTrackIsrc else none }

/-- Strict Deezer state with a duration target whose candidates are all
beyond the threshold. -/
def stC7 : DzState :=
  { artist := some "Artist C", album := none, track := some "Song Far",
    track_number := none, duration := some 100, isrc := none,
    strict := true, fuzzy := false }

/-- Deezer service returning only candidates far from the target. -/
def dzSvcFar : DzService :=
  { search := fun _ => [dzTrackFar1, dzTrackFar2],
    isrcLookup := fun _ => none }

/-- A release carrying a date (used where MusicBrainz must yield one). -/
def relDated : MBRelease :=
  { relId := "REL-1", title := some "Winterreise",
    date := some "1985-03-01", mediumList := none }

/-- A release without the date key. -/
def relNoDate : MBRelease :=
  { relId := "REL-2", title := some "Album X", date := none,
    mediumList := none }

/-- Recording found by the by-id endpoint whose ISRC list differs from
the caller-supplied ISRC. -/
def recIsrcY : MBRecording :=
  { recId := "m1", title := some "Black Bird",
    artistCreditPhrase := some "The Beatles", length := some 138000,
    isrcList := some ["ISRC-Y"], iswcList := none,
    releaseList := [relDated] }

/-- Recording whose first release has no date. -/
def recNoDate : MBRecording :=
  { recId := "m6", title := some "Song One",
    artistCreditPhrase := some "Artist A", length := none,
    isrcList := none, iswcList := none, releaseList := [relNoDate] }

/-- First of three same-titled recordings: lists a foreign release. -/
def recSame1 : MBRecording :=
  { recId := "REC-1", title := some "Gute Nacht",
    artistCreditPhrase := some "Schubert", length := some 331000,
    isrcList := none, iswcList := none,
    releaseList := [{ relId := "REL-9", title := some "Other",
                      date := none, mediumList := none }] }

/-- Second of three same-titled recordings: the only one listing the
supplied release id. -/
def recSame2 : MBRecording :=
  { recId := "REC-2", title := some "Gute Nacht",
    artistCreditPhrase := some "Schubert", length := some 333000,
    isrcList := some ["DEF056730100"], iswcList := none,
    releaseList := [relDated] }

/-- Third of three same-titled recordings: lists a foreign release. -/
def recSame3 : MBRecording :=
  { recId := "REC-3", title := some "Gute Nacht",
    artistCreditPhrase := some "Schubert", length := some 329000,
    isrcList := none, iswcList := none,
    releaseList := [{ relId := "REL-8", title := some "Another",
                      date := none, mediumList := none }] }

/-- MusicBrainz state with a release-level id and no track-level id. -/
def stC5 : MBState :=
  { mbid_track := none, mbid_release := some "REL-1",
    artist := some "Schubert", album := some "Winterreise",
    track := some "Gute Nacht", track_number := none, duration := none,
    isrc := none, strict := false, limit := none }

/-- MusicBrainz service whose recording search returns the three
same-titled recordings whenever the release id is the queried rid. -/
def mbSvcRel : MBService :=
  { byId := fun i => if i = "REC-2" then some recSame2 else none,
    byIsrc := fun _ => none,
    searchRecordings := fun p =>
      if p.rid = some "REL-1" then [recSame1, recSame2, recSame3]
      else [] }

/-- Resolver query carrying a track-level MBID alongside a supplied
ISRC. -/
def qIsrcMbid : AlignState :=
  { mbid_track := some "m1", mbid_release := none,
    artist := some "The Beatles", album := some "The Beatles CD1",
    track := some "Black Bird", track_number := some 11,
    duration := some 138, isrc := some ["ISRC-X"], strict := false }

/-- Services for the ISRC-overwrite counterexample: the by-id lookup
succeeds with a recording whose ISRC list is ISRC-Y. -/
def svcC4 : Services :=
  { mb := { byId := fun i => if i = "m1" then some recIsrcY else none,
            byIsrc := fun _ => none, searchRecordings := fun _ => [] },
    dz := { search := fun _ => [], isrcLookup := fun _ => none },
    yt := { search := fun _ _ => [] } }

/-- Resolver query with a known track MBID whose catalog entry has no
release date. -/
def stC6 : AlignState :=
  { mbid_track := some "m6", mbid_release := none,
    artist := some "Artist A", album := some "Album A",
    track := some "Song One", track_number := none, duration := none,
    isrc := none, strict := false }

/-- Services for the release-date counterexample: MusicBrainz finds the
recording but its release has no date, while Deezer has a dated
candidate. -/
def svcC6 : Services :=
  { mb := { byId := fun i => if i = "m6" then some recNoDate else none,
            byIsrc := fun _ => none, searchRecordings := fun _ => [] },
    dz := { search := fun _ => [dzTrackA], isrcLookup := fun _ => none },
    yt := { search := fun _ _ => [] } }

/-- Resolver query whose supplied track MBID fails lookup. -/
def qBadId : AlignState :=
  { mbid_track := some "bad-mbid", mbid_release := none,
    artist := some "Artist A", album := some "AlbumNoSpace",
    track := some "Song One", track_number := none, duration := none,
    isrc := none, strict := false }

/-- Services for the rejected-identifier scenario: every MusicBrainz
endpoint misses (the by-id ResponseError is swallowed into a miss),
while Deezer has a dated candidate. -/
def svcC9 : Services :=
  { mb := { byId := fun _ => none, byIsrc := fun _ => none,
            searchRecordings := fun _ => [] },
    dz := { search := fun _ => [dzTrackA], isrcLookup := fun _ => none },
    yt := { search := fun _ _ => [] } }

/-- Original identifier mapping that collides with a link key. -/
def origIdsC8 : List (String × Option String) :=
  [("youtube_url", some "https://youtu.be/original"),
   ("catalogue", some "XK-1")]

/-! ## Claims -/

/-- C1: for every TrackQuery whose artist, album and track are all
supplied (truthy), the Resolver accessors `get_artist`, `get_album`
and `get_track` return exactly the supplied values.  The result is the
same for every service bundle — both the one seen at construction time
and the one seen at access time — which is the formal sense in which no
catalog adapter is consulted for those fields. -/
theorem C1_authoritative_short_circuit (q : AlignState)
    (svc svc2 : Services)
    (ha : truthyS q.artist = true) (hb : truthyS q.album = true)
    (ht : truthyS q.track = true) :
    alignGetArtist (alignInit q svc) svc2 = .ok q.artist ∧
    alignGetAlbum (alignInit q svc) svc2 = .ok q.album ∧
    alignGetTrack (alignInit q svc) svc2 = .ok q.track := by
  unfold alignInit
  split
  · simp [alignGetArtist, alignGetAlbum, alignGetTrack, ha, hb, ht]
  · simp [alignGetArtist, alignGetAlbum, alignGetTrack, ha, hb, ht]

/-- Witness for C1 at a concrete fully-supplied query. -/
theorem C1_witness :
    alignGetArtist (alignInit qFull svcEmpty) svcEmpty =
      .ok (some "The Beatles") ∧
    alignGetAlbum (alignInit qFull svcEmpty) svcEmpty =
      .ok (some "The Beatles CD1") ∧
    alignGetTrack (alignInit qFull svcEmpty) svcEmpty =
      .ok (some "Black Bird") :=
  C1_authoritative_short_circuit qFull svcEmpty svcEmpty
    (by decide) (by decide) (by decide)

/-- C3: whenever at least one ISRC code is supplied (truthy list) and
the direct identifier lookup succeeds with candidate `c`, `best_match`
returns `c` unconditionally — for every threshold, so neither the
duration filter nor the track-number filter is ever applied — and the
`get_isrc` and `get_track` accessors then yield that candidate's ISRC
and (short-)title fields verbatim. -/
theorem C3_isrc_short_circuit (st : DzState) (svc : DzService)
    (c : DzTrack) (hi : truthyL st.isrc = true)
    (hl : dzGetTrackByIsrc st svc = some c) :
    (∀ thr : Int, dzBestMatch st svc thr = .ok (some c)) ∧
    dzGetIsrc st svc = .ok (some c.isrc) ∧
    dzGetTrack st svc = .ok (some c.titleShort) := by
  have hbm : ∀ thr : Int, dzBestMatch st svc thr = .ok (some c) := by
    intro thr
    unfold dzBestMatch
    simp [hi, hl]
  exact ⟨hbm, by simp [dzGetIsrc, hbm 3, Except.map],
    by simp [dzGetTrack, hbm 3, Except.map]⟩

/-- Witness for C3 at the spec's Hotter Than That scenario. -/
theorem C3_witness :
    (∀ thr : Int, dzBestMatch stC3 dzSvcIsrc thr = .ok (some dzTrackIsrc)) ∧
    dzGetIsrc stC3 dzSvcIsrc = .ok (some "USSM10003868") ∧
    dzGetTrack stC3 dzSvcIsrc = .ok (some "Hotter Than That") :=
  C3_isrc_short_circuit stC3 dzSvcIsrc dzTrackIsrc (by decide) (by decide)

/-- Auxiliary: a findSome? whose body guards a mapped value by a
predicate is a find? followed by a map. -/
theorem findSome?_guard_eq {α β : Type} (p : α → Prop) [DecidablePred p]
    (f : α → β) (l : List α) :
    (l.findSome? fun a => if p a then some (f a) else none) =
      (l.find? fun a => decide (p a)).map f := by
  induction l with
  | nil => rfl
  | cons x xs ih =>
      by_cases hp : p x
      · simp [List.findSome?_cons, List.find?_cons, hp, ih]
      · simp [List.findSome?_cons, List.find?_cons, hp, ih]

/-- C10: whenever a release-level MBID is set (truthy), `get_recording`
replaces the stored track-level MBID by the release cross-reference
before any lookup by id, so the whole lookup outcome is independent of
whatever track-level MBID the caller supplied. -/
theorem C10_release_id_discards_track_id (st : MBState) (svc : MBService)
    (t t2 : Option String) (hr : truthyS st.mbid_release = true) :
    mbResolvedTrackId { st with mbid_track := t } svc =
      mbGetTrackMbidFromRelease st svc ∧
    mbRecordingResult { st with mbid_track := t } svc =
      mbRecordingResult { st with mbid_track := t2 } svc := by
  have h1 : ∀ u : Option String,
      mbResolvedTrackId { st with mbid_track := u } svc =
        mbGetTrackMbidFromRelease st svc := by
    intro u
    unfold mbResolvedTrackId
    simp [hr, mbGetTrackMbidFromRelease]
  refine ⟨h1 t, ?_⟩
  unfold mbRecordingResult
  rw [h1 t, h1 t2]
  rcases mbGetTrackMbidFromRelease st svc with _ | tid
  · simp [mbNoIdPath]
  · by_cases htid : tid = "" <;> simp [htid, mbNoIdPath]

/-- Witness for C10: a caller-supplied track MBID is discarded in favour
of the release cross-reference. -/
theorem C10_witness :
    mbResolvedTrackId { stC5 with mbid_track := some "SUPPLIED" }
      mbSvcRel = some "REC-2" ∧
    mbRecordingResult { stC5 with mbid_track := some "SUPPLIED" }
      mbSvcRel =
    mbRecordingResult { stC5 with mbid_track := none } mbSvcRel := by
  have h := C10_release_id_discards_track_id stC5 mbSvcRel
    (some "SUPPLIED") none (by decide)
  exact ⟨h.1.trans (by decide), h.2⟩

/-- C5: with a truthy release-level MBID and no track-level one, the
adapter resolves the track-level MBID as the first searched recording
whose release list contains the supplied release id (so with exactly one
qualifying recording, that recording's id); and when no recording
qualifies, the lookup proceeds exactly as if no release-level MBID had
been supplied. -/
theorem C5_release_to_track_resolution (st : MBState) (svc : MBService)
    (rid : String) (hrel : st.mbid_release = some rid)
    (hridne : rid ≠ "") (hnt : st.mbid_track = none) :
    mbResolvedTrackId st svc =
      ((svc.searchRecordings
          ⟨st.track, st.artist, st.album, st.duration, st.track_number,
           st.strict, none, st.mbid_release⟩).find?
        (fun rec =>
          decide (rid ∈ rec.releaseList.map MBRelease.relId))).map
        MBRecording.recId ∧
    (((svc.searchRecordings
          ⟨st.track, st.artist, st.album, st.duration, st.track_number,
           st.strict, none, st.mbid_release⟩).find?
        (fun rec =>
          decide (rid ∈ rec.releaseList.map MBRelease.relId))) = none →
      mbRecordingResult st svc =
        mbRecordingResult { st with mbid_release := none } svc) := by
  have htr : truthyS st.mbid_release = true := by
    simp [hrel, truthyS, hridne]
  have h1 : mbResolvedTrackId st svc =
      ((svc.searchRecordings
          ⟨st.track, st.artist, st.album, st.duration, st.track_number,
           st.strict, none, st.mbid_release⟩).find?
        (fun rec =>
          decide (rid ∈ rec.releaseList.map MBRelease.relId))).map
        MBRecording.recId := by
    unfold mbResolvedTrackId mbGetTrackMbidFromRelease
    rw [if_pos htr]
    rw [hrel]
    exact findSome?_guard_eq _ _ _
  refine ⟨h1, fun hnone => ?_⟩
  unfold mbRecordingResult
  rw [h1, hnone]
  have h2 : mbResolvedTrackId { st with mbid_release := none } svc =
      none := by
    simp [mbResolvedTrackId, truthyS, hnt]
  rw [h2]
  simp [mbNoIdPath]

/-- Witness for C5 at the three-same-titled-recordings scenario: only
the second recording lists REL-1, and its id is selected. -/
theorem C5_witness :
    mbResolvedTrackId stC5 mbSvcRel = some "REC-2" := by
  have h := C5_release_to_track_resolution stC5 mbSvcRel "REL-1" rfl
    (by decide) rfl
  exact h.1.trans (by decide)

/-- Counterexample to C4: with a track-level MBID supplied alongside a
complete TrackQuery, `Align.__init__` replaces the supplied ISRC list
by the catalog's ISRC list, so `get_isrc` returns the adapter-derived
value instead of the supplied one. -/
theorem C4_counterexample :
    alignGetIsrc (alignInit qIsrcMbid svcC4) svcC4 =
      .ok (some (.listV ["ISRC-Y"])) ∧
    qIsrcMbid.isrc = some ["ISRC-X"] ∧
    (Except.ok (some (PyIsrc.listV ["ISRC-Y"])) :
        Except Unit (Option PyIsrc)) ≠
      .ok (some (.listV ["ISRC-X"])) :=
  ⟨by decide, rfl, by decide⟩

/-- C4 as amended: on a fully-supplied (truthy) TrackQuery, resolution
returns the supplied artist, album, track, track number and duration
verbatim even when a track-level MBID is also supplied; the supplied
ISRC is returned verbatim when no track-level MBID is supplied (with
one, `__init__` replaces it by the Canonical-ID Catalog's ISRC list,
per the counterexample). -/
theorem C4_idempotent_amended (q : AlignState) (svc : Services)
    (ha : truthyS q.artist = true) (hb : truthyS q.album = true)
    (ht : truthyS q.track = true) (htn : truthyN q.track_number = true)
    (hd : truthyI q.duration = true) (hi : truthyL q.isrc = true) :
    alignGetArtist (alignInit q svc) svc = .ok q.artist ∧
    alignGetAlbum (alignInit q svc) svc = .ok q.album ∧
    alignGetTrack (alignInit q svc) svc = .ok q.track ∧
    alignGetTrackNumber (alignInit q svc) svc = .ok q.track_number ∧
    alignGetDuration (alignInit q svc) svc = .ok q.duration ∧
    (truthyS q.mbid_track = false →
      alignGetIsrc (alignInit q svc) svc =
        .ok (q.isrc.map PyIsrc.listV)) := by
  by_cases hmb : truthyS q.mbid_track = true
  · have hinit : alignInit q svc =
        { q with isrc := mbGetIsrc (mbFromAlign q) svc.mb } := by
      unfold alignInit
      rw [if_pos hmb]
      simp [ht, ha]
    rw [hinit]
    refine ⟨?_, ?_, ?_, ?_, ?_, ?_⟩
    · simp [alignGetArtist, ha]
    · simp [alignGetAlbum, hb]
    · simp [alignGetTrack, ht]
    · simp [alignGetTrackNumber, htn]
    · simp [alignGetDuration, hd]
    · intro hfalse
      rw [hmb] at hfalse
      cases hfalse
  · have hinit : alignInit q svc = q := by
      unfold alignInit
      rw [if_neg (by simpa using hmb)]
    rw [hinit]
    exact ⟨by simp [alignGetArtist, ha], by simp [alignGetAlbum, hb],
      by simp [alignGetTrack, ht], by simp [alignGetTrackNumber, htn],
      by simp [alignGetDuration, hd],
      fun _ => by simp [alignGetIsrc, hi]⟩

/-- Witness for C4 as amended, at a fully-supplied query without
canonical IDs. -/
theorem C4_witness :
    alignGetArtist (alignInit qFull svcEmpty) svcEmpty =
      .ok (some "The Beatles") ∧
    alignGetAlbum (alignInit qFull svcEmpty) svcEmpty =
      .ok (some "The Beatles CD1") ∧
    alignGetTrack (alignInit qFull svcEmpty) svcEmpty =
      .ok (some "Black Bird") ∧
    alignGetTrackNumber (alignInit qFull svcEmpty) svcEmpty =
      .ok (some 11) ∧
    alignGetDuration (alignInit qFull svcEmpty) svcEmpty =
      .ok (some 138) ∧
    alignGetIsrc (alignInit qFull svcEmpty) svcEmpty =
      .ok (some (.listV ["GBAYE0601690"])) := by
  have h := C4_idempotent_amended qFull svcEmpty (by decide) (by decide)
    (by decide) (by decide) (by decide) (by decide)
  exact ⟨h.1, h.2.1, h.2.2.1, h.2.2.2.1, h.2.2.2.2.1,
    h.2.2.2.2.2 (by decide)⟩

/-- C9: the code bug behind the rejected-identifier claim, evaluated at
a failing input.  With a supplied track MBID whose lookup fails, the
ResponseError is swallowed inside `MusicBrainzAlign._search_by_mbid`,
so the clearing of `self.mbid_track` in `Align.__init__`'s except arm
never runs: the invalid id stays stored, and `get_release_date`
therefore short-circuits to the MusicBrainz branch and returns absent,
instead of resolving via the streaming catalog as it would had no id
been supplied.  (Field accessors still return rather than raise, so the
record is not aborted.) -/
theorem C9_rejected_id_not_cleared :
    (alignInit qBadId svcC9).mbid_track = some "bad-mbid" ∧
    alignGetReleaseDate (alignInit qBadId svcC9) svcC9 = .ok none ∧
    alignGetReleaseDate
      (alignInit { qBadId with mbid_track := none } svcC9) svcC9 =
      .ok (some "05/06/2001") :=
  ⟨by decide, by decide, by decide⟩

/-- Counterexample to C6: a known (truthy) track MBID whose catalog
entry has an absent release date makes `get_release_date` return absent
even though the streaming catalog holds a date — there is no
fall-through for the release-date field. -/
theorem C6_counterexample :
    truthyS stC6.mbid_track = true ∧
    alignGetReleaseDate stC6 svcC6 = .ok none ∧
    dzGetReleaseDate (dzFromAlign stC6) svcC6.dz =
      .ok (some "05/06/2001") :=
  ⟨rfl, by decide, by decide⟩

/-- Auxiliary: case analysis for a four-step fallback chain whose
carrier either returns the first hit wrapped in `Except.ok` or falls to
a tail computation. -/
theorem chain4_cases {α : Type} (o1 o2 o3 o4 : Option α)
    (tail E : Except Unit (Option α))
    (h1 : ∀ v, o1 = some v → E = .ok (some v))
    (h2 : o1 = none → ∀ v, o2 = some v → E = .ok (some v))
    (h3 : o1 = none → o2 = none → ∀ v, o3 = some v → E = .ok (some v))
    (h4 : o1 = none → o2 = none → o3 = none → ∀ v, o4 = some v →
      E = .ok (some v))
    (h5 : o1 = none → o2 = none → o3 = none → o4 = none → E = tail) :
    (∀ v, chainFirst [o1, o2, o3, o4] = some v → E = .ok (some v)) ∧
    (chainFirst [o1, o2, o3, o4] = none → E = tail) := by
  rcases o1 with _ | v1
  · rcases o2 with _ | v2
    · rcases o3 with _ | v3
      · rcases o4 with _ | v4
        · exact ⟨fun v hv => by simp [chainFirst] at hv,
            fun _ => h5 rfl rfl rfl rfl⟩
        · refine ⟨fun v hv => ?_, fun hv => by simp [chainFirst] at hv⟩
          have he : v4 = v := by simpa [chainFirst] using hv
          subst he
          exact h4 rfl rfl rfl v4 rfl
      · refine ⟨fun v hv => ?_, fun hv => by simp [chainFirst] at hv⟩
        have he : v3 = v := by simpa [chainFirst] using hv
        subst he
        exact h3 rfl rfl v3 rfl
    · refine ⟨fun v hv => ?_, fun hv => by simp [chainFirst] at hv⟩
      have he : v2 = v := by simpa [chainFirst] using hv
      subst he
      exact h2 rfl v2 rfl
  · refine ⟨fun v hv => ?_, fun hv => by simp [chainFirst] at hv⟩
    have he : v1 = v := by simpa [chainFirst] using hv
    subst he
    exact h1 v1 rfl

/-- Auxiliary: a four-step fallback chain that ends in `None` equals
the first hit of its steps. -/
theorem chain4_eq {α : Type} (o1 o2 o3 o4 : Option α)
    (E : Except Unit (Option α))
    (h1 : ∀ v, o1 = some v → E = .ok (some v))
    (h2 : o1 = none → ∀ v, o2 = some v → E = .ok (some v))
    (h3 : o1 = none → o2 = none → ∀ v, o3 = some v → E = .ok (some v))
    (h4 : o1 = none → o2 = none → o3 = none → ∀ v, o4 = some v →
      E = .ok (some v))
    (h5 : o1 = none → o2 = none → o3 = none → o4 = none → E = .ok none) :
    E = .ok (chainFirst [o1, o2, o3, o4]) := by
  rcases o1 with _ | v1
  · rcases o2 with _ | v2
    · rcases o3 with _ | v3
      · rcases o4 with _ | v4
        · simpa [chainFirst] using h5 rfl rfl rfl rfl
        · simpa [chainFirst] using h4 rfl rfl rfl v4 rfl
      · simpa [chainFirst] using h3 rfl rfl v3 rfl
    · simpa [chainFirst] using h2 rfl v2 rfl
  · simpa [chainFirst] using h1 v1 rfl


/-- C6 as amended: each of the six field accessors follows its fixed
precedence chain (caller value if truthy; MusicBrainz when a track MBID
is truthy; Deezer; MusicBrainz again; YouTube for artist, album, track
and duration only) stopping at the first non-`None` result; the
release-date accessor does NOT fall through: with a truthy track MBID
its result is the MusicBrainz value — absent or not — independently of
the streaming service, and with a falsy track MBID it is the Deezer
value alone, independently of the MusicBrainz service. -/
theorem C6_precedence_amended (st : AlignState) (svc : Services)
    (dzbm : Option DzTrack)
    (hdz : dzBestMatch (dzFromAlign st) svc.dz 3 = .ok dzbm)
    (mbAlb : Option String)
    (hmbAlb : mbGetAlbum (mbFromAlign st) svc.mb = .ok mbAlb)
    (mbTn : Option Nat)
    (hmbTn : mbGetTrackNumber (mbFromAlign st) svc.mb = .ok mbTn) :
    ((∀ v, chainFirst
        [(if truthyS st.artist then st.artist else none),
         (if truthyS st.mbid_track then
            mbGetArtist (mbFromAlign st) svc.mb else none),
         dzbm.map DzTrack.artistName,
         mbGetArtist (mbFromAlign st) svc.mb] = some v →
        alignGetArtist st svc = .ok (some v)) ∧
     (chainFirst
        [(if truthyS st.artist then st.artist else none),
         (if truthyS st.mbid_track then
            mbGetArtist (mbFromAlign st) svc.mb else none),
         dzbm.map DzTrack.artistName,
         mbGetArtist (mbFromAlign st) svc.mb] = none →
        alignGetArtist st svc =
          ytGetArtist (ytFromAlign st) svc.yt)) ∧
    alignGetAlbum st svc = .ok (chainFirst
        [(if truthyS st.album then st.album else none),
         (if truthyS st.mbid_track then mbAlb else none),
         dzbm.map DzTrack.albumTitle,
         mbAlb,
         ytGetAlbum (ytFromAlign st) svc.yt]) ∧
    alignGetTrack st svc = .ok (chainFirst
        [(if truthyS st.track then st.track else none),
         (if truthyS st.mbid_track then
            mbGetTrack (mbFromAlign st) svc.mb else none),
         dzbm.map DzTrack.titleShort,
         mbGetTrack (mbFromAlign st) svc.mb,
         ytGetTitle (ytFromAlign st) svc.yt]) ∧
    alignGetTrackNumber st svc = .ok (chainFirst
        [(if truthyN st.track_number then st.track_number else none),
         (if truthyS st.mbid_track then mbTn else none),
         dzbm.map DzTrack.trackPosition,
         mbTn]) ∧
    alignGetDuration st svc = .ok (chainFirst
        [(if truthyI st.duration then st.duration else none),
         (if truthyS st.mbid_track then
            mbGetDuration (mbFromAlign st) svc.mb else none),
         dzbm.map DzTrack.duration,
         mbGetDuration (mbFromAlign st) svc.mb,
         ytGetDuration (ytFromAlign st) svc.yt]) ∧
    alignGetIsrc st svc = .ok (chainFirst
        [(if truthyL st.isrc then st.isrc.map PyIsrc.listV else none),
         (if truthyS st.mbid_track then
            (mbGetIsrc (mbFromAlign st) svc.mb).map PyIsrc.listV
          else none),
         (dzbm.map DzTrack.isrc).map PyIsrc.strV,
         (mbGetIsrc (mbFromAlign st) svc.mb).map PyIsrc.listV]) ∧
    (truthyS st.mbid_track = true → ∀ dz2 : DzService,
      alignGetReleaseDate st { svc with dz := dz2 } =
        mbGetReleaseDate (mbFromAlign st) svc.mb) ∧
    (truthyS st.mbid_track = false → ∀ mb2 : MBService,
      alignGetReleaseDate st { svc with mb := mb2 } =
        dzGetReleaseDate (dzFromAlign st) svc.dz) := by
  have hdza : dzGetArtistName (dzFromAlign st) svc.dz =
      .ok (dzbm.map DzTrack.artistName) := by
    simp [dzGetArtistName, hdz, Except.map]
  have hdzi : dzGetIsrc (dzFromAlign st) svc.dz =
      .ok (dzbm.map DzTrack.isrc) := by
    simp [dzGetIsrc, hdz, Except.map]
  have hdzalb : dzGetAlbumTitle (dzFromAlign st) svc.dz =
      .ok (dzbm.map DzTrack.albumTitle) := by
    simp [dzGetAlbumTitle, hdz, Except.map]
  have hdzt : dzGetTrack (dzFromAlign st) svc.dz =
      .ok (dzbm.map DzTrack.titleShort) := by
    simp [dzGetTrack, hdz, Except.map]
  have hdztn : dzGetTrackNumber (dzFromAlign st) svc.dz =
      .ok (dzbm.map DzTrack.trackPosition) := by
    simp [dzGetTrackNumber, hdz, Except.map]
  have hdzd : dzGetDuration (dzFromAlign st) svc.dz =
      .ok (dzbm.map DzTrack.duration) := by
    simp [dzGetDuration, hdz, Except.map]
  refine ⟨?_, ?_, ?_, ?_, ?_, ?_, ?_, ?_⟩
  · refine chain4_cases
      (if truthyS st.artist then st.artist else none)
      (if truthyS st.mbid_track then
        mbGetArtist (mbFromAlign st) svc.mb else none)
      (dzbm.map DzTrack.artistName)
      (mbGetArtist (mbFromAlign st) svc.mb)
      (ytGetArtist (ytFromAlign st) svc.yt)
      (alignGetArtist st svc) ?_ ?_ ?_ ?_ ?_
    · intro v hv
      by_cases ha : truthyS st.artist = true
      · rw [if_pos ha] at hv
        rw [hv] at ha
        simp [alignGetArtist, hv, ha]
      · rw [if_neg ha] at hv
        cases hv
    · intro h1 v hv
      have ha : truthyS st.artist = false := by
        by_cases ha : truthyS st.artist = true
        · rw [if_pos ha] at h1
          rw [h1] at ha
          cases ha
        · simpa using ha
      simp only [alignGetArtist, ha, Bool.false_eq_true, if_false]
      rw [hv]
    · intro h1 h2 v hv
      have ha : truthyS st.artist = false := by
        by_cases ha : truthyS st.artist = true
        · rw [if_pos ha] at h1
          rw [h1] at ha
          cases ha
        · simpa using ha
      rcases hd : dzbm with _ | t
      · rw [hd] at hv
        cases hv
      · rw [hd] at hv
        simp only [Option.map_some'] at hv
        simp [alignGetArtist, ha, h2, hdza, hd, hv, Bind.bind,
          Except.bind, pure, Except.pure]
    · intro h1 h2 h3 v hv
      have ha : truthyS st.artist = false := by
        by_cases ha : truthyS st.artist = true
        · rw [if_pos ha] at h1
          rw [h1] at ha
          cases ha
        · simpa using ha
      have hd : dzbm = none := by
        rcases hdd : dzbm with _ | t
        · rfl
        · rw [hdd] at h3
          cases h3
      have hmb : truthyS st.mbid_track = false := by
        by_cases hmb : truthyS st.mbid_track = true
        · rw [if_pos hmb] at h2
          rw [h2] at hv
          cases hv
        · simpa using hmb
      simp [alignGetArtist, ha, hmb, hdza, hd, hv, Bind.bind,
        Except.bind, pure, Except.pure]
    · intro h1 h2 h3 h4
      have ha : truthyS st.artist = false := by
        by_cases ha : truthyS st.artist = true
        · rw [if_pos ha] at h1
          rw [h1] at ha
          cases ha
        · simpa using ha
      have hd : dzbm = none := by
        rcases hdd : dzbm with _ | t
        · rfl
        · rw [hdd] at h3
          cases h3
      simp [alignGetArtist, ha, h2, hdza, hd, h4, Bind.bind,
        Except.bind, pure, Except.pure]
  · by_cases hab : truthyS st.album = true
    · rcases hsa : st.album with _ | a
      · rw [hsa] at hab
        cases hab
      · rw [hsa] at hab
        simp [alignGetAlbum, chainFirst, hsa, hab]
    · have hab2 : truthyS st.album = false := by simpa using hab
      cases hmb : truthyS st.mbid_track <;>
        rcases mbAlb with _ | mv <;>
          rcases dzbm with _ | dv <;>
            rcases hyt : ytGetAlbum (ytFromAlign st) svc.yt with _ | yv <;>
              simp [alignGetAlbum, chainFirst, hab2, hmb, hmbAlb, hdzalb,
                hyt, Bind.bind, Except.bind, pure, Except.pure]
  · by_cases htk : truthyS st.track = true
    · rcases hsa : st.track with _ | a
      · rw [hsa] at htk
        cases htk
      · rw [hsa] at htk
        simp [alignGetTrack, chainFirst, hsa, htk]
    · have htk2 : truthyS st.track = false := by simpa using htk
      cases hmb : truthyS st.mbid_track <;>
        rcases hm : mbGetTrack (mbFromAlign st) svc.mb with _ | mv <;>
          rcases dzbm with _ | dv <;>
            rcases hyt : ytGetTitle (ytFromAlign st) svc.yt with _ | yv <;>
              simp [alignGetTrack, chainFirst, htk2, hmb, hm, hdzt, hyt,
                Bind.bind, Except.bind, pure, Except.pure]
  · by_cases htn : truthyN st.track_number = true
    · rcases hsn : st.track_number with _ | n
      · rw [hsn] at htn
        cases htn
      · rw [hsn] at htn
        simp [alignGetTrackNumber, chainFirst, hsn, htn, Bind.bind,
          Except.bind, pure, Except.pure]
    · have htn2 : truthyN st.track_number = false := by simpa using htn
      cases hmb : truthyS st.mbid_track <;>
        rcases mbTn with _ | mv <;>
          rcases dzbm with _ | dv <;>
            simp [alignGetTrackNumber, chainFirst, htn2, hmb, hmbTn,
              hdztn, Bind.bind, Except.bind, pure, Except.pure]
  · by_cases hdu : truthyI st.duration = true
    · rcases hsd : st.duration with _ | dval
      · rw [hsd] at hdu
        cases hdu
      · rw [hsd] at hdu
        simp [alignGetDuration, chainFirst, hsd, hdu]
    · have hdu2 : truthyI st.duration = false := by simpa using hdu
      cases hmb : truthyS st.mbid_track <;>
        rcases hm : mbGetDuration (mbFromAlign st) svc.mb with _ | mv <;>
          rcases dzbm with _ | dv <;>
            rcases hyt : ytGetDuration (ytFromAlign st) svc.yt
              with _ | yv <;>
              simp [alignGetDuration, chainFirst, hdu2, hmb, hm, hdzd,
                hyt, Bind.bind, Except.bind, pure, Except.pure]
  · refine chain4_eq
      (if truthyL st.isrc then st.isrc.map PyIsrc.listV else none)
      (if truthyS st.mbid_track then
        (mbGetIsrc (mbFromAlign st) svc.mb).map PyIsrc.listV else none)
      ((dzbm.map DzTrack.isrc).map PyIsrc.strV)
      ((mbGetIsrc (mbFromAlign st) svc.mb).map PyIsrc.listV)
      (alignGetIsrc st svc) ?_ ?_ ?_ ?_ ?_
    · intro v hv
      by_cases hi : truthyL st.isrc = true
      · rw [if_pos hi] at hv
        simp [alignGetIsrc, hi, ← hv]
      · rw [if_neg hi] at hv
        cases hv
    · intro h1 v hv
      have hi : truthyL st.isrc = false := by
        by_cases hi : truthyL st.isrc = true
        · rw [if_pos hi] at h1
          rcases hsi : st.isrc with _ | l
          · rw [hsi] at hi
            cases hi
          · rw [hsi] at h1
            cases h1
        · simpa using hi
      by_cases hmb : truthyS st.mbid_track = true
      · rw [if_pos hmb] at hv
        rcases hm : mbGetIsrc (mbFromAlign st) svc.mb with _ | w
        · rw [hm] at hv
          cases hv
        · rw [hm] at hv
          simp only [Option.map_some'] at hv
          simp [alignGetIsrc, hi, hmb, hm, hv]
      · rw [if_neg hmb] at hv
        cases hv
    · intro h1 h2 v hv
      have hi : truthyL st.isrc = false := by
        by_cases hi : truthyL st.isrc = true
        · rw [if_pos hi] at h1
          rcases hsi : st.isrc with _ | l
          · rw [hsi] at hi
            cases hi
          · rw [hsi] at h1
            cases h1
        · simpa using hi
      have hsc : (if truthyS st.mbid_track = true then
          mbGetIsrc (mbFromAlign st) svc.mb else none) = none := by
        by_cases hmb : truthyS st.mbid_track = true
        · rw [if_pos hmb] at h2
          rw [if_pos hmb]
          exact Option.map_eq_none.mp h2
        · rw [if_neg hmb]
      rcases hd : dzbm with _ | t
      · rw [hd] at hv
        cases hv
      · rw [hd] at hv
        simp only [Option.map_some'] at hv
        simp [alignGetIsrc, hi, hsc, hdzi, hd, ← hv, Bind.bind,
          Except.bind, pure, Except.pure]
    · intro h1 h2 h3 v hv
      have hi : truthyL st.isrc = false := by
        by_cases hi : truthyL st.isrc = true
        · rw [if_pos hi] at h1
          rcases hsi : st.isrc with _ | l
          · rw [hsi] at hi
            cases hi
          · rw [hsi] at h1
            cases h1
        · simpa using hi
      have hsc : (if truthyS st.mbid_track = true then
          mbGetIsrc (mbFromAlign st) svc.mb else none) = none := by
        by_cases hmb : truthyS st.mbid_track = true
        · rw [if_pos hmb] at h2
          rw [if_pos hmb]
          exact Option.map_eq_none.mp h2
        · rw [if_neg hmb]
      have hd : dzbm = none := by
        rcases hdd : dzbm with _ | t
        · rfl
        · rw [hdd] at h3
          cases h3
      simp [alignGetIsrc, hi, hsc, hdzi, hd, hv, Bind.bind,
        Except.bind, pure, Except.pure]
    · intro h1 h2 h3 h4
      have hi : truthyL st.isrc = false := by
        by_cases hi : truthyL st.isrc = true
        · rw [if_pos hi] at h1
          rcases hsi : st.isrc with _ | l
          · rw [hsi] at hi
            cases hi
          · rw [hsi] at h1
            cases h1
        · simpa using hi
      have hsc : (if truthyS st.mbid_track = true then
          mbGetIsrc (mbFromAlign st) svc.mb else none) = none := by
        by_cases hmb : truthyS st.mbid_track = true
        · rw [if_pos hmb] at h2
          rw [if_pos hmb]
          exact Option.map_eq_none.mp h2
        · rw [if_neg hmb]
      have hd : dzbm = none := by
        rcases hdd : dzbm with _ | t
        · rfl
        · rw [hdd] at h3
          cases h3
      simp [alignGetIsrc, hi, hsc, hdzi, hd, h4, Bind.bind,
        Except.bind, pure, Except.pure]
  · intro hmb dz2
    simp [alignGetReleaseDate, hmb]
  · intro hmb mb2
    simp [alignGetReleaseDate, hmb]

/-- Witness for C6 as amended, at the counterexample's fixtures: the
chains produce the caller artist and album, Deezer's track number and
ISRC, the release-date branch with a known MBID ignores the streaming
service, and without an MBID it ignores the canonical catalog. -/
theorem C6_witness :
    alignGetArtist stC6 svcC6 = .ok (some "Artist A") ∧
    alignGetAlbum stC6 svcC6 = .ok (some "Album A") ∧
    alignGetTrack stC6 svcC6 = .ok (some "Song One") ∧
    alignGetTrackNumber stC6 svcC6 = .ok (some 1) ∧
    alignGetDuration stC6 svcC6 = .ok (some 100) ∧
    alignGetIsrc stC6 svcC6 = .ok (some (PyIsrc.strV "ISRCA")) ∧
    alignGetReleaseDate stC6 { svcC6 with dz := svcC9.dz } =
      mbGetReleaseDate (mbFromAlign stC6) svcC6.mb ∧
    alignGetReleaseDate { stC6 with mbid_track := none }
      { svcC6 with mb := svcC9.mb } =
      dzGetReleaseDate (dzFromAlign { stC6 with mbid_track := none })
        svcC6.dz := by
  have h := C6_precedence_amended stC6 svcC6 (some dzTrackA) (by decide)
    (some "Album X") (by decide) none (by decide)
  have h2 := C6_precedence_amended { stC6 with mbid_track := none }
    svcC6 (some dzTrackA) (by decide) none (by decide) none (by decide)
  exact ⟨by decide, by decide, by decide, by decide, by decide,
    by decide, h.2.2.2.2.2.2.1 (by decide) svcC9.dz,
    h2.2.2.2.2.2.2.2 (by decide) svcC9.mb⟩

/-- Counterexample to C7: with strict mode on, a supplied duration
target, two raw candidates and a filter that eliminates both,
`best_match` raises (Python's `min` of an empty sequence, line 214)
instead of returning "no match". -/
theorem C7_counterexample :
    (dzSvcFar.search ⟨stC7.track, stC7.artist, stC7.album,
      stC7.fuzzy⟩).length = 2 ∧
    dzSurvivors stC7 dzSvcFar 3 = [] ∧
    dzBestMatch stC7 dzSvcFar 3 = .error () :=
  ⟨by decide, by decide, by decide⟩

/-- C7 as amended: whenever strict-mode filtering eliminates every
candidate of a search yielding at least two raw candidates while a
duration target is supplied, `best_match` raises an error (the adapter
documents that strict mode raises when nothing corresponds) rather
than returning "no match". -/
theorem C7_filtered_empty_raises (st : DzState) (svc : DzService)
    (thr : Int) (hisrc : truthyL st.isrc = false)
    (hdur : truthyI st.duration = true)
    (hlen : 2 ≤ (svc.search ⟨st.track, st.artist, st.album,
      st.fuzzy⟩).length)
    (hempty : dzSurvivors st svc thr = []) :
    dzBestMatch st svc thr = .error () := by
  have hne : svc.search ⟨st.track, st.artist, st.album, st.fuzzy⟩ ≠
      [] := by
    intro h
    rw [h] at hlen
    simp at hlen
  have hlen1 : (svc.search ⟨st.track, st.artist, st.album,
      st.fuzzy⟩).length ≠ 1 := by omega
  unfold dzBestMatch
  rw [if_neg (by simp [hdur])]
  rw [if_neg (by simp [hisrc])]
  unfold dzSurvivors at hempty
  simp only [dzGetData, if_neg hne]
  rw [if_neg hlen1]
  rw [if_pos hdur]
  rw [hempty]
  rfl

/-- Witness for C7 as amended, at the two-far-candidates fixture. -/
theorem C7_witness : dzBestMatch stC7 dzSvcFar 3 = .error () :=
  C7_filtered_empty_raises stC7 dzSvcFar 3 (by decide) (by decide)
    (by decide) (by decide)

/-- Auxiliary: lookup distributes over cons. -/
theorem dictLookup_cons (p : String × Option String)
    (rest : List (String × Option String)) (k : String) :
    dictLookup (p :: rest) k =
      if p.1 = k then some p.2 else dictLookup rest k := by
  by_cases h : p.1 = k <;> simp [dictLookup, List.find?_cons, h]

/-- Auxiliary: lookup distributes over append. -/
theorem dictLookup_append (x y : List (String × Option String))
    (k : String) :
    dictLookup (x ++ y) k = (dictLookup x k).or (dictLookup y k) := by
  induction x with
  | nil => simp [dictLookup]
  | cons p rest ih =>
      by_cases h : p.1 = k <;>
        simp [List.cons_append, dictLookup_cons, h, ih]

/-- Auxiliary: lookup in the collision-rewritten copy of `a` (the first
half of a Python dict merge). -/
theorem dictLookup_mapMerge (a b : List (String × Option String))
    (k : String) :
    dictLookup (a.map (fun p =>
      match dictLookup b p.1 with
      | some v => (p.1, v)
      | none => p)) k =
      (dictLookup a k).map (fun v => (dictLookup b k).getD v) := by
  induction a with
  | nil => rfl
  | cons x xs ih =>
      rcases hb : dictLookup b x.1 with _ | w
      · by_cases hx : x.1 = k
        · rw [← hx]
          simp [List.map_cons, dictLookup_cons, hb]
        · simp [List.map_cons, dictLookup_cons, hb, hx, ih]
      · by_cases hx : x.1 = k
        · rw [← hx]
          simp [List.map_cons, dictLookup_cons, hb]
        · simp [List.map_cons, dictLookup_cons, hb, hx, ih]

/-- Auxiliary: filtering `b` down to keys absent from `a` does not
change lookups of keys absent from `a`. -/
theorem dictLookup_filter_absent (a b : List (String × Option String))
    (k : String) (ha : dictLookup a k = none) :
    dictLookup (b.filter (fun p => (dictLookup a p.1).isNone)) k =
      dictLookup b k := by
  induction b with
  | nil => rfl
  | cons x xs ih =>
      by_cases hx : x.1 = k
      · have hq : (dictLookup a x.1).isNone = true := by
          rw [hx, ha]; rfl
        simp [List.filter_cons, hq, dictLookup_cons, hx, ih, ha]
      · by_cases hq : (dictLookup a x.1).isNone = true
        · simp [List.filter_cons, hq, dictLookup_cons, hx, ih]
        · simp [List.filter_cons, hq, dictLookup_cons, hx, ih]

/-- Auxiliary: full characterisation of a Python dict merge lookup:
keys of `a` keep their position, with `b` winning on collision; keys
only in `b` come from `b`. -/
theorem dictLookup_mergeDicts (a b : List (String × Option String))
    (k : String) :
    dictLookup (mergeDicts a b) k =
      match dictLookup a k with
      | some v => some ((dictLookup b k).getD v)
      | none => dictLookup b k := by
  unfold mergeDicts
  rw [dictLookup_append, dictLookup_mapMerge]
  rcases ha : dictLookup a k with _ | v
  · simp [Option.or, dictLookup_filter_absent a b k ha]
  · simp [Option.or]

/-- Counterexample to C8: when no adapter returns any candidate, an
original identifier whose key collides with one of the seven link keys
is overwritten with an absent value by the merge — the original mapping
is not preserved unmodified. -/
theorem C8_counterexample :
    dictLookup origIdsC8 "youtube_url" =
      some (some "https://youtu.be/original") ∧
    dictLookup (complementIdentifiers origIdsC8
        (loNothing (some "Unknown Song XYZ123")) none none)
      "youtube_url" = some none ∧
    (some (none : Option String) ≠
      some (some "https://youtu.be/original")) :=
  ⟨rfl, by decide, by decide⟩

/-- C8 as amended: when no adapter returns any candidate, original
identifier entries whose keys are outside the seven link keys are
preserved with their values; entries at link keys are overwritten with
the absent value `None` (which is also the value newly added for link
keys not previously present); and every unresolved field of the audit
row is absent, never a placeholder. -/
theorem C8_no_candidates_amended
    (origIds : List (String × Option String)) (track : Option String)
    (f : String) :
    (∀ k, k ∉ linkKeys →
      dictLookup (complementIdentifiers origIds (loNothing track)
        none none) k = dictLookup origIds k) ∧
    (∀ k, k ∈ linkKeys →
      dictLookup (complementIdentifiers origIds (loNothing track)
        none none) k = some none) ∧
    ((complementJams (loNothing track) origIds f none none).2.artistName
        = none ∧
     (complementJams (loNothing track) origIds f none none).2.albumName
        = none ∧
     (complementJams (loNothing track) origIds f none
        none).2.trackNumber = none ∧
     (complementJams (loNothing track) origIds f none none).2.duration
        = none ∧
     (complementJams (loNothing track) origIds f none
        none).2.releaseYear = none ∧
     (complementJams (loNothing track) origIds f none
        none).2.musicbrainz = none ∧
     (complementJams (loNothing track) origIds f none none).2.isrcRow
        = none ∧
     (complementJams (loNothing track) origIds f none none).2.deezerId
        = none ∧
     (complementJams (loNothing track) origIds f none none).2.deezerUrl
        = none ∧
     (complementJams (loNothing track) origIds f none
        none).2.youtubeUrl = none ∧
     (complementJams (loNothing track) origIds f none
        none).2.acousticbrainz = none ∧
     (complementJams (loNothing track) origIds f none none).2.spotifyId
        = none) := by
  refine ⟨?_, ?_, rfl, rfl, rfl, rfl, rfl, rfl, rfl, rfl, rfl, rfl,
    rfl, rfl⟩
  · intro k hk
    unfold complementIdentifiers
    rw [dictLookup_mergeDicts]
    have hl : dictLookup (linksDict (loNothing track) none none) k =
        none := by
      simp only [linkKeys, List.mem_cons, List.not_mem_nil, or_false,
        not_or] at hk
      obtain ⟨h1, h2, h3, h4, h5, h6, h7⟩ := hk
      simp [linksDict, dictLookup_cons, loNothing, Ne.symm h1,
        Ne.symm h2, Ne.symm h3, Ne.symm h4, Ne.symm h5, Ne.symm h6,
        Ne.symm h7, dictLookup]
    rw [hl]
    cases h : dictLookup origIds k <;> simp
  · intro k hk
    unfold complementIdentifiers
    rw [dictLookup_mergeDicts]
    have hl : dictLookup (linksDict (loNothing track) none none) k =
        some none := by
      simp only [linkKeys, List.mem_cons, List.not_mem_nil, or_false]
        at hk
      rcases hk with h | h | h | h | h | h | h <;> subst h <;> rfl
    rw [hl]
    cases h : dictLookup origIds k <;> simp

/-- Witness for C8 as amended at the colliding-key fixture: the foreign
key keeps its value, the link keys are absent-valued, and the audit row
is empty. -/
theorem C8_witness :
    dictLookup (complementIdentifiers origIdsC8
        (loNothing (some "Unknown Song XYZ123")) none none)
      "catalogue" = dictLookup origIdsC8 "catalogue" ∧
    dictLookup (complementIdentifiers origIdsC8
        (loNothing (some "Unknown Song XYZ123")) none none)
      "isrc" = some none ∧
    (complementJams (loNothing (some "Unknown Song XYZ123")) origIdsC8
      "f.jams" none none).2.artistName = none := by
  have h := C8_no_candidates_amended origIdsC8
    (some "Unknown Song XYZ123") "f.jams"
  exact ⟨h.1 "catalogue" (by decide), h.2.1 "isrc" (by decide),
    h.2.2.1⟩

/-- Auxiliary: swapping the first two elements into Python's fold step
preserves the first minimum. -/
theorem firstMinBy_cons_cons (key : Int → Nat) (x y : Int)
    (ys : List Int) :
    firstMinBy key (x :: y :: ys) =
      firstMinBy key ((if key y < key x then y else x) :: ys) := by
  rcases h : firstMinBy key ys with _ | w
  · simp [firstMinBy, h]
  · simp only [firstMinBy, h]
    split_ifs <;> first | rfl | omega

/-- Auxiliary: Python's `min(x :: xs, key)` left fold computes the
first minimum of the list. -/
theorem firstMinBy_eq_pyMinBy (key : Int → Nat) (x : Int)
    (xs : List Int) :
    firstMinBy key (x :: xs) = some (pyMinBy key x xs) := by
  induction xs generalizing x with
  | nil => rfl
  | cons y ys ih =>
      rw [firstMinBy_cons_cons, ih]
      rfl

/-- Auxiliary: a first minimum of a nonempty list always exists. -/
theorem firstMinBy_ne_none {α : Type} (key : α → Nat) (b : α)
    (bs : List α) : firstMinBy key (b :: bs) ≠ none := by
  rcases h : firstMinBy key bs with _ | u <;> simp [firstMinBy, h]

/-- Auxiliary: the first minimum is a lower bound of its list. -/
theorem firstMinBy_min {α : Type} (key : α → Nat) (l : List α) (c : α)
    (h : firstMinBy key l = some c) : ∀ x ∈ l, key c ≤ key x := by
  induction l generalizing c with
  | nil => cases h
  | cons a as ih =>
      intro x hx
      rcases has : firstMinBy key as with _ | w
      · simp only [firstMinBy, has] at h
        have hca : c = a := (Option.some.inj h).symm
        subst hca
        cases as with
        | nil =>
            rcases List.mem_cons.mp hx with hx1 | hx1
            · subst hx1; exact le_refl _
            · cases hx1
        | cons b bs => exact absurd has (firstMinBy_ne_none key b bs)
      · simp only [firstMinBy, has] at h
        have hc : c = if key w < key a then w else a :=
          (Option.some.inj h).symm
        have hwmin := ih w has
        rcases List.mem_cons.mp hx with hx1 | hx1
        · subst hx1
          rw [hc]
          split_ifs <;> omega
        · have hwx := hwmin x hx1
          rw [hc]
          split_ifs <;> omega

/-- Auxiliary: the first minimum splits its list so that everything
before it has a strictly larger key (ties keep the earlier element). -/
theorem firstMinBy_first {α : Type} (key : α → Nat) (l : List α) (c : α)
    (h : firstMinBy key l = some c) :
    ∃ l1 l2, l = l1 ++ c :: l2 ∧ ∀ x ∈ l1, key c < key x := by
  induction l generalizing c with
  | nil => cases h
  | cons a as ih =>
      rcases has : firstMinBy key as with _ | w
      · simp only [firstMinBy, has] at h
        have hca : c = a := (Option.some.inj h).symm
        subst hca
        exact ⟨[], as, rfl, fun x hx => absurd hx (List.not_mem_nil x)⟩
      · simp only [firstMinBy, has] at h
        by_cases hlt : key w < key a
        · rw [if_pos hlt] at h
          have hcw : c = w := (Option.some.inj h).symm
          subst hcw
          obtain ⟨l1, l2, hsplit, hstrict⟩ := ih c has
          refine ⟨a :: l1, l2, by rw [hsplit]; rfl, ?_⟩
          intro x hx
          rcases List.mem_cons.mp hx with hx1 | hx1
          · subst hx1; exact hlt
          · exact hstrict x hx1
        · rw [if_neg hlt] at h
          have hca : c = a := (Option.some.inj h).symm
          subst hca
          exact ⟨[], as, rfl, fun x hx => absurd hx (List.not_mem_nil x)⟩

/-- Auxiliary: on a nonempty track list, the first minimum by duration
distance exists, its duration is the first minimum of the duration
list, and indexing the duration list at the first occurrence of that
duration recovers the track itself — the exact composition of `min`
and `list.index` at deezer_links.py line 214. -/
theorem firstMin_get_indexOf (d : Int) (l : List DzTrack)
    (hne : l ≠ []) :
    ∃ c, firstMinBy (fun c => (c.duration - d).natAbs) l = some c ∧
      firstMinBy (fun x => (x - d).natAbs) (l.map DzTrack.duration) =
        some c.duration ∧
      l.get? ((l.map DzTrack.duration).indexOf c.duration) = some c := by
  induction l with
  | nil => cases hne rfl
  | cons t ts ih =>
      by_cases hts : ts = []
      · subst hts
        exact ⟨t, rfl, rfl, by simp⟩
      · obtain ⟨c, hc1, hc2, hc3⟩ := ih hts
        by_cases hlt : (c.duration - d).natAbs <
            (t.duration - d).natAbs
        · refine ⟨c, ?_, ?_, ?_⟩
          · simp only [firstMinBy, hc1]
            rw [if_pos hlt]
          · simp only [List.map_cons, firstMinBy, hc2]
            rw [if_pos hlt]
          · have hne2 : t.duration ≠ c.duration := by
              intro he
              rw [he] at hlt
              omega
            simp only [List.map_cons]
            rw [List.indexOf_cons_ne _ hne2]
            exact hc3
        · refine ⟨t, ?_, ?_, ?_⟩
          · simp only [firstMinBy, hc1]
            rw [if_neg hlt]
          · simp only [List.map_cons, firstMinBy, hc2]
            rw [if_neg hlt]
          · simp

/-- Counterexample to C2: in strict mode with a track-number target,
the track-number filter can eliminate the duration minimizer, so
`best_match` returns a candidate that does not minimize the absolute
duration difference over the search results. -/
theorem C2_counterexample :
    dzSvcNear.search ⟨stC2.track, stC2.artist, stC2.album, stC2.fuzzy⟩ =
      [dzTrackA, dzTrackB] ∧
    stC2.duration = some 100 ∧
    dzBestMatch stC2 dzSvcNear 3 = .ok (some dzTrackB) ∧
    (dzTrackA.duration - 100).natAbs < (dzTrackB.duration - 100).natAbs :=
  ⟨rfl, rfl, by decide, by decide⟩

/-- C2 as amended: for a search yielding at least two candidates with a
supplied duration target `d` (and no ISRC), provided the strict-mode
duration and track-number filters leave at least one survivor,
`best_match` returns the first survivor minimizing the absolute
duration difference: it is no farther than every survivor, and every
survivor placed before it is strictly farther (ties keep the earlier
candidate).  In non-strict mode the filters are the identity, so the
minimization is over all search results. -/
theorem C2_closest_duration_amended (st : DzState) (svc : DzService)
    (thr : Int) (d : Int) (hisrc : truthyL st.isrc = false)
    (hdur : st.duration = some d) (hd0 : d ≠ 0)
    (hlen : 2 ≤ (svc.search ⟨st.track, st.artist, st.album,
      st.fuzzy⟩).length)
    (hsurv : dzSurvivors st svc thr ≠ []) :
    ∃ c l1 l2, dzBestMatch st svc thr = .ok (some c) ∧
      dzSurvivors st svc thr = l1 ++ c :: l2 ∧
      (∀ x ∈ dzSurvivors st svc thr,
        (c.duration - d).natAbs ≤ (x.duration - d).natAbs) ∧
      (∀ x ∈ l1, (c.duration - d).natAbs < (x.duration - d).natAbs) := by
  have hdurT : truthyI st.duration = true := by
    simp [truthyI, hdur, hd0]
  obtain ⟨c, hc1, hc2, hc3⟩ :=
    firstMin_get_indexOf d (dzSurvivors st svc thr) hsurv
  have hne : svc.search ⟨st.track, st.artist, st.album, st.fuzzy⟩ ≠
      [] := by
    intro h
    rw [h] at hlen
    simp at hlen
  have hlen1 : (svc.search ⟨st.track, st.artist, st.album,
      st.fuzzy⟩).length ≠ 1 := by omega
  have hbm : dzBestMatch st svc thr = .ok (some c) := by
    unfold dzBestMatch
    rw [if_neg (by simp [hdurT])]
    rw [if_neg (by simp [hisrc])]
    simp only [dzGetData, if_neg hne]
    rw [if_neg hlen1]
    rw [if_pos hdurT]
    have hsurvE : dzFilterTrackNumber st (dzFilterDuration st
        (svc.search ⟨st.track, st.artist, st.album, st.fuzzy⟩) thr) =
        dzSurvivors st svc thr := rfl
    rw [hsurvE]
    rcases hmap : (dzSurvivors st svc thr).map DzTrack.duration
      with _ | ⟨dh, dt⟩
    · exact absurd (List.map_eq_nil_iff.mp hmap) hsurv
    · have hpy : pyMinBy (fun x => (x - st.duration.getD 0).natAbs)
          dh dt = c.duration := by
        have he := firstMinBy_eq_pyMinBy
          (fun x => (x - st.duration.getD 0).natAbs) dh dt
        rw [← hmap] at he
        rw [hdur] at he ⊢
        simp only [Option.getD_some] at he ⊢
        rw [hc2] at he
        exact (Option.some.inj he).symm
      show Except.ok ((dzSurvivors st svc thr).get?
          ((dh :: dt).indexOf (pyMinBy
            (fun x => (x - st.duration.getD 0).natAbs) dh dt))) =
        Except.ok (some c)
      rw [hpy, ← hmap, hc3]
  obtain ⟨l1, l2, hsplit, hstrict⟩ :=
    firstMinBy_first (fun c => (c.duration - d).natAbs) _ c hc1
  exact ⟨c, l1, l2, hbm, hsplit,
    firstMinBy_min (fun c => (c.duration - d).natAbs) _ c hc1, hstrict⟩

/-- Witness for C2 as amended: two non-strict candidates at distances 2
and 0 from the target, listed farthest first; the minimizer is the
second listed candidate. -/
theorem C2_witness :
    ∃ c l1 l2, dzBestMatch stC2w dzSvcNearRev 3 = .ok (some c) ∧
      dzSurvivors stC2w dzSvcNearRev 3 = l1 ++ c :: l2 ∧
      (∀ x ∈ dzSurvivors stC2w dzSvcNearRev 3,
        (c.duration - 100).natAbs ≤ (x.duration - 100).natAbs) ∧
      (∀ x ∈ l1, (c.duration - 100).natAbs <
        (x.duration - 100).natAbs) :=
  C2_closest_duration_amended stC2w dzSvcNearRev 3 100 (by decide) rfl
    (by decide) (by decide) (by decide)
